import Mathlib

/-!
Verification of SimpleTCPResponder against its specification.

The development shallowly embeds the relevant parts of the repository:
the echo connection handler (src/servers/echo_server.py), the web request
handler (src/servers/web_server.py), the server manager lifecycle
(src/main.py) and the configuration data model (src/config.py).
Machine-level byte values are modelled as Nat, Python strings as List Char
where their characters are inspected and as String where they are only
stored, and fallible operations as Except.
-/

namespace STCP

/-- A chunk of bytes, as returned by one reader.read(1024) call in
EchoServer.handle_client. -/
abbrev Chunk := List Nat

/-- One iteration of the echo loop as seen from the environment: either the
read returns the bytes c (and, when c is nonempty, the subsequent
writer.write plus drain succeeds when ok = true and raises when ok = false),
or the read itself raises an exception. -/
inductive IterOutcome where
  | recv (c : Chunk) (ok : Bool)
  | recvErr
  deriving DecidableEq

/-- Observable events of one echo connection handler, including a possible
exception escaping the handler. -/
inductive Event where
  | read (c : Chunk)
  | write (c : Chunk)
  | close
  | raised
  deriving DecidableEq

/-- The bare while-True loop of EchoServer.handle_client, before the
surrounding try/except/finally: data = await reader.read(1024); break when
data is empty; otherwise writer.write(data) and await writer.drain() before
the next read. The result pairs the events performed with: some false when
the loop ended by the break on an empty read, some true when an exception
escaped a read or a write, and none when the supplied outcomes were exhausted
with the loop still waiting on its next read. -/
def echoLoop : List IterOutcome → List Event × Option Bool
  | [] => ([], none)
  | IterOutcome.recvErr :: _ => ([], some true)
  | IterOutcome.recv c ok :: rest =>
      if c = [] then ([Event.read []], some false)
      else if ok then
        let r := echoLoop rest
        (Event.read c :: Event.write c :: r.1, r.2)
      else ([Event.read c], some true)

/-- EchoServer.handle_client: the loop wrapped in try/except
asyncio.CancelledError/except Exception/finally. Every exception escaping the
loop body is caught and logged, and the finally block closes the writer, so
when the loop terminates the handler emits Event.close and never emits
Event.raised. When the supplied outcomes are exhausted with the loop still
running no close has happened yet. -/
def handle_client (outs : List IterOutcome) : List Event :=
  match echoLoop outs with
  | (evs, some _) => evs ++ [Event.close]
  | (evs, none) => evs

/-- Chunks written back, in order, by a handler execution. -/
def writesOf (t : List Event) : List Chunk :=
  t.filterMap (fun e => match e with | Event.write c => some c | _ => none)

/-- Chunks read, in order, by a handler execution. -/
def readsOf (t : List Event) : List Chunk :=
  t.filterMap (fun e => match e with | Event.read c => some c | _ => none)

/-- A clean connection: every read returns its chunk and every write
succeeds. -/
def cleanConn (chunks : List Chunk) : List IterOutcome :=
  chunks.map (fun c => IterOutcome.recv c true)

/-- EchoServer.start serving loop dispatches every accepted connection to its
own handle_client task; the traces of a list of connections are independent. -/
def serveConnections (conns : List (List IterOutcome)) : List (List Event) :=
  conns.map handle_client

/-- Python str.strip whitespace test, restricted to the ASCII whitespace
characters; the Unicode-only whitespace characters play no role here since
the compared prefixes are ASCII and whitespace-free. -/
def isPySpace (c : Char) : Bool :=
  c = ' ' || c = '\t' || c = '\n' || c = '\r' || c = '\x0b' || c = '\x0c'

/-- Leading-whitespace trim (the left half of Python str.strip). -/
def stripLeft (s : List Char) : List Char := s.dropWhile isPySpace

/-- Trailing-whitespace trim (the right half of Python str.strip). -/
def stripRight : List Char → List Char
  | [] => []
  | c :: rest =>
      let r := stripRight rest
      if r.isEmpty && isPySpace c then [] else c :: r

/-- Python str.strip with no argument: remove leading and trailing
whitespace. -/
def pyStrip (s : List Char) : List Char := stripRight (stripLeft s)

/-- Python str.startswith, first argument the candidate leading piece. -/
def pyStartswith : List Char → List Char → Bool
  | [], _ => true
  | _ :: _, [] => false
  | q :: qs, c :: cs => q == c && pyStartswith qs cs

/-- An HTTP request as seen by WebServer.handle_request: only method, path
and headers are observable (and only logged). -/
structure HttpRequest where
  method : String
  path : String
  headers : List (String × String)
  deriving DecidableEq

/-- An aiohttp web.Response as built by WebServer.handle_request: default
status, the body text, the chosen content type, and the two extra headers
Server and X-Served-Port (the latter str(self.port)). -/
structure HttpResponse where
  status : Nat
  body : List Char
  content_type : String
  serverHeader : String
  xServedPort : Nat
  deriving DecidableEq

/-- WebServer.handle_request: the request is only logged; the handler picks
text/html when self.content.strip() starts with the DOCTYPE marker or the
html tag, text/plain otherwise, and returns web.Response with
text=self.content and the identifying headers; aiohttp defaults the status
to 200. -/
def handle_request (content : List Char) (port : Nat) (req : HttpRequest) : HttpResponse :=
  { status := 200
    body := content
    content_type :=
      if pyStartswith "<!DOCTYPE".data (pyStrip content)
          || pyStartswith "<html".data (pyStrip content)
      then "text/html" else "text/plain"
    serverHeader := "SimpleTCPResponder"
    xServedPort := port }

/-- An OS-level error as carried by a Python OSError: errno and message. -/
structure OsError where
  errno : Nat
  msg : String
  deriving DecidableEq

/-- EchoServer.start and WebServer.start up to binding: a single call to the
listener factory, whose outcome the environment supplies as env 0; on OSError
the error is logged and re-raised unchanged, and there is no retry loop, so
exactly one bind attempt is made. The result pairs the start outcome with the
number of bind attempts performed. -/
def server_start (env : Nat → Except OsError Unit) : Except OsError Unit × Nat :=
  (match env 0 with
   | Except.ok _ => Except.ok ()
   | Except.error e => Except.error e,
   1)

/-- ServerManager.start_all: every server start runs in its own task, and
asyncio.gather with return_exceptions set collects each task outcome without
cancelling the others, so each result is the bind outcome of that server
alone. -/
def start_all (binds : List (Except OsError Unit)) : List (Except OsError Unit) :=
  binds.map (fun b => (server_start (fun _ => b)).1)

/-- Runtime flags of one server instance: whether a listener object exists
(self.server for echo, self.runner for web) and the _running flag. -/
structure ServerState where
  hasListener : Bool
  running : Bool
  deriving DecidableEq

/-- EchoServer.stop and WebServer.stop: when the listener object exists it is
closed and _running is cleared; otherwise the method returns with the state
unchanged. -/
def server_stop (s : ServerState) : ServerState :=
  if s.hasListener then { s with running := false } else s

/-- ServerManager state: the _shutdown flag, the per-server runtime flags and
the per-task done flags. -/
structure ManagerState where
  shutdown : Bool
  servers : List ServerState
  tasksDone : List Bool
  deriving DecidableEq

/-- ServerManager.stop_all: return immediately when _shutdown is already set;
otherwise set _shutdown, stop every server, and cancel every task that is not
yet done, after which every task is done. -/
def stop_all (m : ManagerState) : ManagerState :=
  if m.shutdown then m
  else
    { shutdown := true
      servers := m.servers.map server_stop
      tasksDone := m.tasksDone.map (fun _ => true) }

/-- The type field of a server spec as consumed by
ServerManager.create_servers. -/
inductive SpecType where
  | echo
  | web
  | other (s : String)
  deriving DecidableEq

/-- A server spec as handed to the manager (config.ServerConfig after
loading). -/
structure Spec where
  type : SpecType
  port : Nat
  content : Option (List Char)
  bind_address : String
  deriving DecidableEq

/-- A constructed server instance. The EchoServer and WebServer constructors
store the given port, content and bind address as-is; they perform no
validation and cannot fail. -/
inductive ServerInstance where
  | echoInst (port : Nat) (bind_address : String)
  | webInst (port : Nat) (content : Option (List Char)) (bind_address : String)
  deriving DecidableEq

/-- ServerManager.create_servers: echo and web specs construct the matching
instance unconditionally; an unknown type is logged and skipped. -/
def create_servers (specs : List Spec) : List ServerInstance :=
  specs.filterMap (fun s =>
    match s.type with
    | SpecType.echo => some (ServerInstance.echoInst s.port s.bind_address)
    | SpecType.web => some (ServerInstance.webInst s.port s.content s.bind_address)
    | SpecType.other _ => none)

/-- Outcome of running the entry point once: either the process exited with
the given status, or it is still serving with the given per-task results. -/
inductive RunOutcome where
  | exited (code : Nat)
  | serving (results : List (Except OsError Unit))

/-- run_servers in src/main.py: create the instances; when none were created
call sys.exit(1). Otherwise start_all launches one task per instance and
awaits asyncio.gather with return_exceptions set: the gather returns only
once every task is done, so the process keeps serving while at least one
instance is bound; when every instance failed to bind, every task is already
done, the gather returns, stop_all runs in the finally block and the process
falls off main with exit status 0. -/
def run_servers (specs : List Spec) (bind : Nat → Except OsError Unit) : RunOutcome :=
  let instances := create_servers specs
  if instances.isEmpty then RunOutcome.exited 1
  else
    let results := (List.range instances.length).map
      (fun i => (server_start (fun _ => bind i)).1)
    if results.any (fun r => r.isOk) then RunOutcome.serving results
    else RunOutcome.exited 0

/-- config.ServerConfig: the dataclass fields. The port is an arbitrary
integer before validation. -/
structure ServerConfigP where
  type : String
  port : Int
  content : Option String
  bind_address : String
  deriving DecidableEq

/-- ServerConfig.validate: ValueError on a type outside echo and web, on a
port outside 1..65535, and on a web server with falsy content (missing or
empty); the isinstance int check is carried by the Int type of the port
field. -/
def ServerConfigP.validate (s : ServerConfigP) : Except String Unit :=
  if s.type ≠ "echo" ∧ s.type ≠ "web" then
    Except.error ("Invalid server type: " ++ s.type)
  else if s.port < 1 ∨ s.port > 65535 then
    Except.error ("Invalid port: " ++ toString s.port)
  else if s.type = "web" ∧ (s.content = none ∨ s.content = some "") then
    Except.error "Web servers must have content specified"
  else Except.ok ()

/-- The dictionary produced for one server by dataclasses.asdict: exactly the
four dataclass fields. -/
structure ServerDict where
  type : String
  port : Int
  content : Option String
  bind_address : String
  deriving DecidableEq

/-- The dictionary produced by Config.to_dict: a servers key holding one
dictionary per server. -/
structure ConfigDict where
  servers : List ServerDict
  deriving DecidableEq

/-- config.Config: the list of server configurations. -/
structure ConfigP where
  servers : List ServerConfigP
  deriving DecidableEq

/-- dataclasses.asdict on one ServerConfig. -/
def ServerConfigP.asdict (s : ServerConfigP) : ServerDict :=
  { type := s.type, port := s.port, content := s.content,
    bind_address := s.bind_address }

/-- ServerConfig applied to the unpacked dictionary fields, as in
Config.from_dict. -/
def ServerConfigP.ofDict (d : ServerDict) : ServerConfigP :=
  { type := d.type, port := d.port, content := d.content,
    bind_address := d.bind_address }

/-- Config.to_dict. -/
def ConfigP.to_dict (c : ConfigP) : ConfigDict :=
  { servers := c.servers.map ServerConfigP.asdict }

/-- Config.from_dict: read the servers key (present in every dictionary that
to_dict produces) and rebuild one ServerConfig per entry. -/
def ConfigP.from_dict (d : ConfigDict) : ConfigP :=
  { servers := d.servers.map ServerConfigP.ofDict }

theorem echoLoop_clean (chunks : List Chunk) (h : ∀ c ∈ chunks, c ≠ []) :
    echoLoop (cleanConn chunks)
      = (chunks.flatMap (fun c => [Event.read c, Event.write c]), none) := by
  induction chunks with
  | nil => rfl
  | cons c rest ih =>
      have hc : c ≠ [] := h c (by simp)
      have ih2 := ih (fun d hd => h d (by simp [hd]))
      simp only [cleanConn] at ih2
      simp [cleanConn, echoLoop, hc, ih2]

theorem echoLoop_eof (pre post : List Chunk) (h : ∀ c ∈ pre, c ≠ []) :
    echoLoop (cleanConn (pre ++ [] :: post))
      = (pre.flatMap (fun c => [Event.read c, Event.write c]) ++ [Event.read []],
         some false) := by
  induction pre with
  | nil => rfl
  | cons c rest ih =>
      have hc : c ≠ [] := h c (by simp)
      have ih2 := ih (fun d hd => h d (by simp [hd]))
      simp [cleanConn, echoLoop, hc] at ih2 ⊢
      simp [ih2]

theorem raised_not_in_echoLoop (outs : List IterOutcome) :
    Event.raised ∉ (echoLoop outs).1 := by
  induction outs with
  | nil => simp [echoLoop]
  | cons o rest ih =>
      cases o with
      | recvErr => simp [echoLoop]
      | recv c ok =>
          by_cases hc : c = []
          · simp [echoLoop, hc]
          · by_cases hok : ok = true
            · simp [echoLoop, hc, hok]
              exact ih
            · simp [echoLoop, hc, hok]

theorem raised_not_in_handle_client (outs : List IterOutcome) :
    Event.raised ∉ handle_client outs := by
  have hl := raised_not_in_echoLoop outs
  unfold handle_client
  rcases he : echoLoop outs with ⟨evs, st⟩
  rw [he] at hl
  cases st <;> simp_all

theorem writesOf_pairs (chunks : List Chunk) :
    writesOf (chunks.flatMap (fun c => [Event.read c, Event.write c])) = chunks := by
  induction chunks with
  | nil => rfl
  | cons c rest ih => simp [writesOf, List.filterMap_cons] at ih ⊢; exact ih

theorem readsOf_pairs (chunks : List Chunk) :
    readsOf (chunks.flatMap (fun c => [Event.read c, Event.write c])) = chunks := by
  induction chunks with
  | nil => rfl
  | cons c rest ih => simp [readsOf, List.filterMap_cons] at ih ⊢; exact ih

/-- C1: on one echo connection, every nonempty chunk read is written back
verbatim before the next read is issued, and the full byte stream written
back equals the byte stream received. -/
theorem echo_writes_back_exactly (chunks : List Chunk) (h : ∀ c ∈ chunks, c ≠ []) :
    handle_client (cleanConn chunks)
      = chunks.flatMap (fun c => [Event.read c, Event.write c]) ∧
    (writesOf (handle_client (cleanConn chunks))).flatten
      = (readsOf (handle_client (cleanConn chunks))).flatten := by
  have h1 : handle_client (cleanConn chunks)
      = chunks.flatMap (fun c => [Event.read c, Event.write c]) := by
    unfold handle_client
    rw [echoLoop_clean chunks h]
  exact ⟨h1, by rw [h1, writesOf_pairs, readsOf_pairs]⟩

theorem echo_writes_back_exactly_witness :
    handle_client (cleanConn [[1,2],[3]])
      = [[1,2],[3]].flatMap (fun c => [Event.read c, Event.write c]) ∧
    (writesOf (handle_client (cleanConn [[1,2],[3]]))).flatten
      = (readsOf (handle_client (cleanConn [[1,2],[3]]))).flatten :=
  echo_writes_back_exactly [[1,2],[3]] (by decide)

/-- C4: a read returning zero bytes ends the loop: nothing further is
written, the connection is closed, no exception escapes; in particular a
connection whose first read is empty gets zero bytes written back. -/
theorem echo_eof_closes (pre post : List Chunk) (h : ∀ c ∈ pre, c ≠ []) :
    handle_client (cleanConn (pre ++ [] :: post))
      = pre.flatMap (fun c => [Event.read c, Event.write c])
          ++ [Event.read [], Event.close] ∧
    writesOf (handle_client (cleanConn (([] : Chunk) :: post))) = [] ∧
    Event.raised ∉ handle_client (cleanConn (pre ++ [] :: post)) := by
  have h1 : handle_client (cleanConn (pre ++ [] :: post))
      = pre.flatMap (fun c => [Event.read c, Event.write c])
          ++ [Event.read [], Event.close] := by
    unfold handle_client
    rw [echoLoop_eof pre post h]
    simp
  refine ⟨h1, ?_, raised_not_in_handle_client _⟩
  have h2 : handle_client (cleanConn (([] : Chunk) :: post))
      = [Event.read [], Event.close] := by
    have := echoLoop_eof [] post (by simp)
    unfold handle_client
    simp only [List.nil_append] at this
    rw [this]
    rfl
  rw [h2]
  rfl

theorem echo_eof_closes_witness :
    handle_client (cleanConn ([[7]] ++ [] :: [[9]]))
      = [[7]].flatMap (fun c => [Event.read c, Event.write c])
          ++ [Event.read [], Event.close] ∧
    writesOf (handle_client (cleanConn (([] : Chunk) :: [[9]]))) = [] ∧
    Event.raised ∉ handle_client (cleanConn ([[7]] ++ [] :: [[9]])) :=
  echo_eof_closes [[7]] [[9]] (by decide)

/-- C6: when a read or write error escapes the echo loop, the handler closes
that connection and raises nothing, and other connections served by the same
listener are handled independently and unchanged. -/
theorem echo_errors_isolated (outs : List IterOutcome) (b : Bool)
    (h : (echoLoop outs).2 = some b) :
    handle_client outs = (echoLoop outs).1 ++ [Event.close] ∧
    Event.raised ∉ handle_client outs ∧
    ∀ pre post : List (List IterOutcome),
      serveConnections (pre ++ outs :: post)
        = serveConnections pre ++ handle_client outs :: serveConnections post := by
  refine ⟨?_, raised_not_in_handle_client _, ?_⟩
  · unfold handle_client
    rcases he : echoLoop outs with ⟨evs, st⟩
    rw [he] at h
    simp at h
    subst h
    rfl
  · intro pre post
    simp [serveConnections]

theorem echo_errors_isolated_witness :
    handle_client [IterOutcome.recv [5] true, IterOutcome.recvErr]
      = (echoLoop [IterOutcome.recv [5] true, IterOutcome.recvErr]).1
          ++ [Event.close] ∧
    Event.raised ∉ handle_client [IterOutcome.recv [5] true, IterOutcome.recvErr] ∧
    ∀ pre post : List (List IterOutcome),
      serveConnections (pre ++ [IterOutcome.recv [5] true, IterOutcome.recvErr] :: post)
        = serveConnections pre
            ++ handle_client [IterOutcome.recv [5] true, IterOutcome.recvErr]
              :: serveConnections post :=
  echo_errors_isolated [IterOutcome.recv [5] true, IterOutcome.recvErr] true (by decide)


theorem pyStartswith_stripRight (s : List Char) :
    ∀ p : List Char, (∀ c ∈ p, isPySpace c = false) →
      pyStartswith p (stripRight s) = pyStartswith p s := by
  induction s with
  | nil => intro p hp; rfl
  | cons c rest ih =>
      intro p hp
      by_cases hcond : ((stripRight rest).isEmpty && isPySpace c) = true
      · have hsr : stripRight (c :: rest) = [] := by
          simp only [stripRight]
          rw [if_pos hcond]
        rw [hsr]
        cases p with
        | nil => rfl
        | cons q qs =>
            have hq : isPySpace q = false := hp q (by simp)
            have hc2 : isPySpace c = true := (Bool.and_eq_true _ _ |>.mp hcond).2
            have hqc : (q == c) = false := by
              apply beq_eq_false_iff_ne.mpr
              intro hqc
              rw [hqc, hc2] at hq
              exact Bool.noConfusion hq
            simp [pyStartswith, hqc]
      · have hsr : stripRight (c :: rest) = c :: stripRight rest := by
          simp only [stripRight]
          rw [if_neg hcond]
        rw [hsr]
        cases p with
        | nil => rfl
        | cons q qs =>
            have hqs : ∀ d ∈ qs, isPySpace d = false := fun d hd => hp d (by simp [hd])
            simp [pyStartswith, ih qs hqs]

theorem pyStartswith_pyStrip (p s : List Char) (hp : ∀ c ∈ p, isPySpace c = false) :
    pyStartswith p (pyStrip s) = pyStartswith p (stripLeft s) :=
  pyStartswith_stripRight (stripLeft s) p hp

/-- C2: every request to a web instance configured with content C is answered
with status 200 and body exactly C, regardless of method, path or headers. -/
theorem web_returns_content (content : List Char) (port : Nat) (req : HttpRequest) :
    (handle_request content port req).status = 200 ∧
    (handle_request content port req).body = content := by
  exact ⟨rfl, rfl⟩

/-- C3: the content type is text/html exactly when the content, after
trimming leading whitespace, begins with the case-sensitive DOCTYPE marker or
the html tag opener; any other content gets text/plain. -/
theorem web_content_type_selection (content : List Char) (port : Nat) (req : HttpRequest) :
    ((handle_request content port req).content_type = "text/html" ↔
      (pyStartswith "<!DOCTYPE".data (stripLeft content) = true ∨
       pyStartswith "<html".data (stripLeft content) = true)) ∧
    ((pyStartswith "<!DOCTYPE".data (stripLeft content) = false ∧
      pyStartswith "<html".data (stripLeft content) = false) →
      (handle_request content port req).content_type = "text/plain") := by
  have hd : ∀ c ∈ "<!DOCTYPE".data, isPySpace c = false := by decide
  have hh : ∀ c ∈ "<html".data, isPySpace c = false := by decide
  have e1 : pyStartswith "<!DOCTYPE".data (pyStrip content)
      = pyStartswith "<!DOCTYPE".data (stripLeft content) :=
    pyStartswith_pyStrip _ _ hd
  have e2 : pyStartswith "<html".data (pyStrip content)
      = pyStartswith "<html".data (stripLeft content) :=
    pyStartswith_pyStrip _ _ hh
  have hct : (handle_request content port req).content_type
      = if pyStartswith "<!DOCTYPE".data (pyStrip content)
            || pyStartswith "<html".data (pyStrip content)
        then "text/html" else "text/plain" := rfl
  rw [hct, e1, e2] at *
  by_cases hcond : (pyStartswith "<!DOCTYPE".data (stripLeft content)
      || pyStartswith "<html".data (stripLeft content)) = true
  · rw [if_pos hcond]
    constructor
    · constructor
      · intro _
        exact Bool.or_eq_true _ _ |>.mp hcond
      · intro _
        rfl
    · intro hboth
      rcases Bool.or_eq_true _ _ |>.mp hcond with hx | hx
      · rw [hboth.1] at hx
        exact absurd hx (by decide)
      · rw [hboth.2] at hx
        exact absurd hx (by decide)
  · rw [if_neg hcond]
    constructor
    · constructor
      · intro hplain
        exact absurd hplain (by decide)
      · intro hor
        exact absurd (Bool.or_eq_true _ _ |>.mpr hor) hcond
    · intro _
      rfl

theorem web_content_type_selection_witness :
    ((handle_request "plain text".data 8080
        { method := "GET", path := "/", headers := [] }).content_type = "text/html" ↔
      (pyStartswith "<!DOCTYPE".data (stripLeft "plain text".data) = true ∨
       pyStartswith "<html".data (stripLeft "plain text".data) = true)) ∧
    ((pyStartswith "<!DOCTYPE".data (stripLeft "plain text".data) = false ∧
      pyStartswith "<html".data (stripLeft "plain text".data) = false) →
      (handle_request "plain text".data 8080
        { method := "GET", path := "/", headers := [] }).content_type = "text/plain") :=
  web_content_type_selection "plain text".data 8080
    { method := "GET", path := "/", headers := [] }

theorem server_start_outcome (b : Except OsError Unit) :
    (server_start (fun _ => b)).1 = b := by
  cases b with
  | ok v => cases v; rfl
  | error e => rfl

/-- C5: a failed bind is reported as the re-raised underlying OS error of the
single bind attempt, is not retried, and the collected start outcomes of the
sibling instances are exactly their own bind outcomes, unaffected by the
failure. -/
theorem bind_failure_isolated (env : Nat → Except OsError Unit) (e : OsError)
    (binds : List (Except OsError Unit)) (he : env 0 = Except.error e) :
    (server_start env).1 = Except.error e ∧
    (server_start env).2 = 1 ∧
    start_all binds = binds := by
  refine ⟨?_, rfl, ?_⟩
  · simp [server_start, he]
  · induction binds with
    | nil => rfl
    | cons b rest ih =>
        show (server_start (fun _ => b)).1 :: start_all rest = b :: rest
        rw [server_start_outcome, ih]

theorem bind_failure_isolated_witness :
    (server_start (fun _ => Except.error (OsError.mk 98 "Address already in use"))).1
      = Except.error (OsError.mk 98 "Address already in use") ∧
    (server_start (fun _ => Except.error (OsError.mk 98 "Address already in use"))).2
      = 1 ∧
    start_all [Except.ok (), Except.error (OsError.mk 13 "Permission denied")]
      = [Except.ok (), Except.error (OsError.mk 13 "Permission denied")] :=
  bind_failure_isolated
    (fun _ => Except.error (OsError.mk 98 "Address already in use"))
    (OsError.mk 98 "Address already in use")
    [Except.ok (), Except.error (OsError.mk 13 "Permission denied")] rfl

/-- C7: from a state not yet shut down, stop_all sets the shutdown flag,
every started instance ends stopped, and a second stop_all is a no-op
returning its argument unchanged, so the flag moves from false to true
exactly once. -/
theorem stop_all_idempotent (m : ManagerState) (h : m.shutdown = false) :
    stop_all (stop_all m) = stop_all m ∧
    (stop_all m).shutdown = true ∧
    (∀ s ∈ (stop_all m).servers, s.hasListener = true → s.running = false) := by
  have h1 : stop_all m
      = { shutdown := true, servers := m.servers.map server_stop,
          tasksDone := m.tasksDone.map (fun _ => true) } := by
    simp [stop_all, h]
  refine ⟨?_, by rw [h1], ?_⟩
  · rw [h1]
    simp [stop_all]
  · intro s hs hl
    rw [h1] at hs
    simp only [List.mem_map] at hs
    obtain ⟨t, ht, rfl⟩ := hs
    by_cases htl : t.hasListener = true
    · simp [server_stop, htl]
    · rw [server_stop, if_neg htl] at hl ⊢
      exact absurd hl htl

theorem stop_all_idempotent_witness :
    stop_all (stop_all (ManagerState.mk false [ServerState.mk true true] [false]))
      = stop_all (ManagerState.mk false [ServerState.mk true true] [false]) ∧
    (stop_all (ManagerState.mk false [ServerState.mk true true] [false])).shutdown
      = true ∧
    (∀ s ∈ (stop_all (ManagerState.mk false [ServerState.mk true true] [false])).servers,
      s.hasListener = true → s.running = false) :=
  stop_all_idempotent (ManagerState.mk false [ServerState.mk true true] [false]) rfl

/-- C8 counterexample: one echo spec whose single bind attempt fails. No
instance could start, yet the process neither keeps running nor exits with a
non-zero status: every task is already done, the gather returns, and the
process exits with status 0. -/
theorem run_servers_all_binds_fail_exits_zero :
    run_servers [Spec.mk SpecType.echo 8000 none "0.0.0.0"]
        (fun _ => Except.error (OsError.mk 98 "Address already in use"))
      = RunOutcome.exited 0 := by
  rfl

/-- C8 amended: with no created instances the process exits with status 1;
with at least one created instance, if some bind succeeds the process keeps
serving and each task result is its own bind outcome, while if every bind
fails the process exits with status 0 rather than a non-zero status. -/
theorem run_servers_exit_policy (specs : List Spec)
    (bind : Nat → Except OsError Unit) :
    (create_servers specs = [] → run_servers specs bind = RunOutcome.exited 1) ∧
    (create_servers specs ≠ [] →
      ((∃ i, i < (create_servers specs).length ∧ (bind i).isOk = true) →
        run_servers specs bind
          = RunOutcome.serving
              ((List.range (create_servers specs).length).map bind)) ∧
      ((∀ i, i < (create_servers specs).length → (bind i).isOk = false) →
        run_servers specs bind = RunOutcome.exited 0)) := by
  have hres : (List.range (create_servers specs).length).map
        (fun i => (server_start (fun _ => bind i)).1)
      = (List.range (create_servers specs).length).map bind := by
    simp only [server_start_outcome]
  constructor
  · intro hempty
    simp [run_servers, hempty]
  · intro hne
    have hlen : (create_servers specs).isEmpty = false := by
      cases hcs : create_servers specs with
      | nil => exact absurd hcs hne
      | cons a l => rfl
    constructor
    · rintro ⟨i, hi, hok⟩
      have hany : ((List.range (create_servers specs).length).map bind).any
          (fun r => r.isOk) = true :=
        List.any_eq_true.mpr
          ⟨bind i, List.mem_map.mpr ⟨i, List.mem_range.mpr hi, rfl⟩, hok⟩
      simp [run_servers, hlen, hres, hany]
    · intro hall
      have hany0 : ((List.range (create_servers specs).length).map bind).any
          (fun r => r.isOk) = false := by
        rw [List.any_eq_false]
        intro r hr
        obtain ⟨i, hi, rfl⟩ := List.mem_map.mp hr
        simp [hall i (List.mem_range.mp hi)]
      simp [run_servers, hlen, hres, hany0]

theorem run_servers_exit_policy_witness :
    run_servers [Spec.mk SpecType.echo 8000 none "0.0.0.0"] (fun _ => Except.ok ())
      = RunOutcome.serving
          ((List.range
              (create_servers [Spec.mk SpecType.echo 8000 none "0.0.0.0"]).length).map
            (fun _ => Except.ok ())) :=
  ((run_servers_exit_policy [Spec.mk SpecType.echo 8000 none "0.0.0.0"]
      (fun _ => Except.ok ())).2 (by decide)).1 ⟨0, by decide, rfl⟩

/-- C9 counterexample: a spec with the invalid port 0 passes construction
untouched: the manager constructs an echo instance and no rejection happens,
even though ServerConfig.validate rejects the same data. -/
theorem construction_accepts_invalid_spec :
    create_servers [Spec.mk SpecType.echo 0 none "0.0.0.0"]
      = [ServerInstance.echoInst 0 "0.0.0.0"] ∧
    (ServerConfigP.validate (ServerConfigP.mk "echo" 0 none "0.0.0.0")).isOk
      = false := by
  exact ⟨rfl, by decide⟩

/-- C9 amended: rejection of an invalid spec happens upstream in
ServerConfig.validate, which errors on a bad type, an out-of-range port and a
web server without content; instance construction never rejects, producing
one instance for every echo or web spec regardless of validity. -/
theorem validate_rejects_construction_accepts (s : ServerConfigP)
    (hinv : (s.type ≠ "echo" ∧ s.type ≠ "web") ∨ (s.port < 1 ∨ s.port > 65535) ∨
            (s.type = "web" ∧ (s.content = none ∨ s.content = some ""))) :
    (ServerConfigP.validate s).isOk = false ∧
    ∀ specs : List Spec,
      (create_servers specs).length
        = (specs.filter (fun sp => match sp.type with
            | SpecType.other _ => false
            | _ => true)).length := by
  constructor
  · unfold ServerConfigP.validate
    by_cases h1 : s.type ≠ "echo" ∧ s.type ≠ "web"
    · rw [if_pos h1]
      rfl
    · rw [if_neg h1]
      by_cases h2 : s.port < 1 ∨ s.port > 65535
      · rw [if_pos h2]
        rfl
      · rw [if_neg h2]
        by_cases h3 : s.type = "web" ∧ (s.content = none ∨ s.content = some "")
        · rw [if_pos h3]
          rfl
        · exact absurd hinv (by simp [h1, h2, h3])
  · intro specs
    induction specs with
    | nil => rfl
    | cons sp rest ih =>
        cases htype : sp.type with
        | echo =>
            simp [create_servers, List.filterMap_cons, List.filter_cons, htype] at ih ⊢
            exact ih
        | web =>
            simp [create_servers, List.filterMap_cons, List.filter_cons, htype] at ih ⊢
            exact ih
        | other str =>
            simp [create_servers, List.filterMap_cons, List.filter_cons, htype] at ih ⊢
            exact ih

theorem validate_rejects_construction_accepts_witness :
    (ServerConfigP.validate (ServerConfigP.mk "web" 8080 (some "") "0.0.0.0")).isOk
      = false ∧
    ∀ specs : List Spec,
      (create_servers specs).length
        = (specs.filter (fun sp => match sp.type with
            | SpecType.other _ => false
            | _ => true)).length :=
  validate_rejects_construction_accepts
    (ServerConfigP.mk "web" 8080 (some "") "0.0.0.0")
    (Or.inr (Or.inr (by decide)))

/-- C10: Config.from_dict inverts Config.to_dict: the dictionary round-trip
reconstructs every server entry field for field. -/
theorem config_roundtrip (c : ConfigP) :
    ConfigP.from_dict (ConfigP.to_dict c) = c := by
  cases c with
  | mk servers =>
      show ConfigP.mk
          (List.map ServerConfigP.ofDict (List.map ServerConfigP.asdict servers))
        = ConfigP.mk servers
      rw [List.map_map]
      congr 1
      induction servers with
      | nil => rfl
      | cons s rest ih =>
          show ServerConfigP.ofDict (ServerConfigP.asdict s) :: _ = s :: rest
          rw [ih]
          rfl

end STCP
